import Mathlib

/-!
Verification of `src/ccnd/lib/ccn_dtag_table.c`: the CCNx DTAG dictionary,
a fixed bidirectional table between small integer codes and element names,
together with the lookup contract its spec describes.

The C file embeds the table `ccn_tagdict` (44 entries) and exports the
descriptor `ccn_dtag_dict = {ARRAY_N(ccn_tagdict), ccn_tagdict}`.  The
numeric values of the `CCN_DTAG_*` codes live in `ccn/coding.h`, which is
not part of this repository's sources, as do the lookup routines; those
parts are modelled from the spec and marked as such below.
-/

/-- An entry of the dictionary: the C `struct ccn_dict_entry`, an
association of a numeric code with an element name.  Modelled from the
spec: the struct declaration is in `ccn/coding.h`, which is not among the
repository's sources; the spec describes an entry as a non-negative
integer `code` paired with a `name` string. -/
structure ccn_dict_entry where
  code : Nat
  name : String
deriving DecidableEq, Repr

/-- A dictionary descriptor: the C `struct ccn_dict`, an entry list plus
its count.  Modelled from the spec: the struct declaration is in
`ccn/coding.h`, not among the repository's sources; the spec describes a
dictionary as an ordered collection of entries plus its count. -/
structure ccn_dict where
  count : Nat
  dict : List ccn_dict_entry
deriving DecidableEq, Repr

/-- Modelled from the spec: the numeric values of the `CCN_DTAG_*`
enumerators come from `ccn/coding.h`, which is not among the repository's
sources.  The spec fixes `code = 1` for the entry named "Name" and calls
the codes small distinct non-negative integers, so the enumerators are
modelled as the C-enum auto-increment sequence starting at 1, in the
order the table lists them. -/
def CCN_DTAG_Name : Nat := 1

def CCN_DTAG_Component : Nat := 2

def CCN_DTAG_Certificate : Nat := 3

def CCN_DTAG_Collection : Nat := 4

def CCN_DTAG_CompleteName : Nat := 5

def CCN_DTAG_Content : Nat := 6

def CCN_DTAG_ContentAuthenticator : Nat := 7

def CCN_DTAG_ContentDigest : Nat := 8

def CCN_DTAG_ContentHash : Nat := 9

def CCN_DTAG_ContentObject : Nat := 10

def CCN_DTAG_Count : Nat := 11

def CCN_DTAG_Header : Nat := 12

def CCN_DTAG_Interest : Nat := 13

def CCN_DTAG_Key : Nat := 14

def CCN_DTAG_KeyLocator : Nat := 15

def CCN_DTAG_KeyName : Nat := 16

def CCN_DTAG_Length : Nat := 17

def CCN_DTAG_Link : Nat := 18

def CCN_DTAG_LinkAuthenticator : Nat := 19

def CCN_DTAG_NameComponentCount : Nat := 20

def CCN_DTAG_PublisherID : Nat := 21

def CCN_DTAG_PublisherKeyID : Nat := 22

def CCN_DTAG_RootDigest : Nat := 23

def CCN_DTAG_Signature : Nat := 24

def CCN_DTAG_Start : Nat := 25

def CCN_DTAG_Timestamp : Nat := 26

def CCN_DTAG_Type : Nat := 27

def CCN_DTAG_Nonce : Nat := 28

def CCN_DTAG_Scope : Nat := 29

def CCN_DTAG_Exclude : Nat := 30

def CCN_DTAG_Bloom : Nat := 31

def CCN_DTAG_BloomSeed : Nat := 32

def CCN_DTAG_OrderPreference : Nat := 33

def CCN_DTAG_AnswerOriginKind : Nat := 34

def CCN_DTAG_MatchFirstAvailableDescendant : Nat := 35

def CCN_DTAG_MatchLastAvailableDescendant : Nat := 36

def CCN_DTAG_MatchNextAvailableSibling : Nat := 37

def CCN_DTAG_MatchLastAvailableSibling : Nat := 38

def CCN_DTAG_MatchEntirePrefix : Nat := 39

def CCN_DTAG_Witness : Nat := 40

def CCN_DTAG_SignatureBits : Nat := 41

def CCN_DTAG_DigestAlgorithm : Nat := 42

def CCN_DTAG_CCNProtocolDataUnit : Nat := 43

def CCN_DTAG_ExperimentalResponseFilter : Nat := 44

/-- The static entry array `ccn_tagdict` of `ccn_dtag_table.c`, row for
row in source order. -/
def ccn_tagdict : List ccn_dict_entry := [
  ⟨ CCN_DTAG_Name, "Name"⟩,
  ⟨ CCN_DTAG_Component, "Component"⟩,
  ⟨ CCN_DTAG_Certificate, "Certificate"⟩,
  ⟨ CCN_DTAG_Collection, "Collection"⟩,
  ⟨ CCN_DTAG_CompleteName, "CompleteName"⟩,
  ⟨ CCN_DTAG_Content, "Content"⟩,
  ⟨ CCN_DTAG_ContentAuthenticator, "ContentAuthenticator"⟩,
  ⟨ CCN_DTAG_ContentDigest, "ContentDigest"⟩,
  ⟨ CCN_DTAG_ContentHash, "ContentHash"⟩,
  ⟨ CCN_DTAG_ContentObject, "ContentObject"⟩,
  ⟨ CCN_DTAG_Count, "Count"⟩,
  ⟨ CCN_DTAG_Header, "Header"⟩,
  ⟨ CCN_DTAG_Interest, "Interest"⟩,
  ⟨ CCN_DTAG_Key, "Key"⟩,
  ⟨ CCN_DTAG_KeyLocator, "KeyLocator"⟩,
  ⟨ CCN_DTAG_KeyName, "KeyName"⟩,
  ⟨ CCN_DTAG_Length, "Length"⟩,
  ⟨ CCN_DTAG_Link, "Link"⟩,
  ⟨ CCN_DTAG_LinkAuthenticator, "LinkAuthenticator"⟩,
  ⟨ CCN_DTAG_NameComponentCount, "NameComponentCount"⟩,
  ⟨ CCN_DTAG_PublisherID, "PublisherID"⟩,
  ⟨ CCN_DTAG_PublisherKeyID, "PublisherKeyID"⟩,
  ⟨ CCN_DTAG_RootDigest, "RootDigest"⟩,
  ⟨ CCN_DTAG_Signature, "Signature"⟩,
  ⟨ CCN_DTAG_Start, "Start"⟩,
  ⟨ CCN_DTAG_Timestamp, "Timestamp"⟩,
  ⟨ CCN_DTAG_Type, "Type"⟩,
  ⟨ CCN_DTAG_Nonce, "Nonce"⟩,
  ⟨ CCN_DTAG_Scope, "Scope"⟩,
  ⟨ CCN_DTAG_Exclude, "Exclude"⟩,
  ⟨ CCN_DTAG_Bloom, "Bloom"⟩,
  ⟨ CCN_DTAG_BloomSeed, "BloomSeed"⟩,
  ⟨ CCN_DTAG_OrderPreference, "OrderPreference"⟩,
  ⟨ CCN_DTAG_AnswerOriginKind, "AnswerOriginKind"⟩,
  ⟨ CCN_DTAG_MatchFirstAvailableDescendant, "MatchFirstAvailableDescendant"⟩,
  ⟨ CCN_DTAG_MatchLastAvailableDescendant, "MatchLastAvailableDescendant"⟩,
  ⟨ CCN_DTAG_MatchNextAvailableSibling, "MatchNextAvailableSibling"⟩,
  ⟨ CCN_DTAG_MatchLastAvailableSibling, "MatchLastAvailableSibling"⟩,
  ⟨ CCN_DTAG_MatchEntirePrefix, "MatchEntirePrefix"⟩,
  ⟨ CCN_DTAG_Witness, "Witness"⟩,
  ⟨ CCN_DTAG_SignatureBits, "SignatureBits"⟩,
  ⟨ CCN_DTAG_DigestAlgorithm, "DigestAlgorithm"⟩,
  ⟨ CCN_DTAG_CCNProtocolDataUnit, "CCNProtocolDataUnit"⟩,
  ⟨ CCN_DTAG_ExperimentalResponseFilter, "ExperimentalResponseFilter"⟩]

/-- The exported descriptor of `ccn_dtag_table.c`:
`const struct ccn_dict ccn_dtag_dict = {ARRAY_N(ccn_tagdict), ccn_tagdict}`,
the element count of the array paired with the array itself. -/
def ccn_dtag_dict : ccn_dict := ⟨ccn_tagdict.length, ccn_tagdict⟩

/-- Modelled from the spec: the lookup `name_for(code) -> name | not_found`
is part of the codec library, not of this repository's sources.  Per the
spec it returns the name associated with `code` when some entry matches it
exactly, and a distinguishable not-found result otherwise; a linear scan
over the descriptor's entries is the spec's acceptable reference shape. -/
def name_for (d : ccn_dict) (code : Nat) : Option String :=
  (d.dict.find? (fun e => e.code == code)).map ccn_dict_entry.name

/-- Modelled from the spec: the lookup `code_for(name) -> code | not_found`
is part of the codec library, not of this repository's sources.  Per the
spec it returns the code of the entry whose name matches the argument
exactly and case-sensitively, and a distinguishable not-found result
otherwise. -/
def code_for (d : ccn_dict) (name : String) : Option Nat :=
  (d.dict.find? (fun e => e.name == name)).map ccn_dict_entry.code

/-- Modelled from the spec: `build()` takes the literal entry list and
yields a dictionary handle, failing (MalformedTable) when the list
violates code uniqueness or name uniqueness; the construction routine is
not among the repository's sources. -/
def build (entries : List ccn_dict_entry) : Option ccn_dict :=
  if (entries.map ccn_dict_entry.code).Nodup ∧ (entries.map ccn_dict_entry.name).Nodup then
    some ⟨entries.length, entries⟩
  else
    none

/-! Helper lemmas shared by several results below. -/

/-- A `name_for` lookup misses exactly when no entry of the descriptor
carries the requested code. -/
theorem name_for_eq_none_of_not_mem (d : ccn_dict) (code : Nat)
    (h : ∀ e ∈ d.dict, e.code ≠ code) : name_for d code = none := by
  have hf : d.dict.find? (fun e => e.code == code) = none := by
    rw [List.find?_eq_none]
    intro e he
    simpa using h e he
  simp [name_for, hf]

/-- A `code_for` lookup misses exactly when no entry of the descriptor
carries the requested name. -/
theorem code_for_eq_none_of_not_mem (d : ccn_dict) (s : String)
    (h : ∀ e ∈ d.dict, e.name ≠ s) : code_for d s = none := by
  have hf : d.dict.find? (fun e => e.name == s) = none := by
    rw [List.find?_eq_none]
    intro e he
    simpa using h e he
  simp [code_for, hf]

/-- A `code_for` hit always comes from an entry whose name equals the
queried string exactly. -/
theorem code_for_some_exact (d : ccn_dict) (s : String) (c : Nat)
    (h : code_for d s = some c) :
    ∃ e ∈ d.dict, e.name = s ∧ e.code = c := by
  unfold code_for at h
  cases hf : d.dict.find? (fun e => e.name == s) with
  | none => rw [hf] at h; simp at h
  | some e =>
    rw [hf] at h
    rw [Option.map_some', Option.some_inj] at h
    refine ⟨e, List.mem_of_find?_eq_some hf, ?_, h⟩
    have := List.find?_some hf
    simpa using this

/-! The claimed properties. -/

/-- C1: for every entry (code, name) of `ccn_tagdict`, looking the code up
returns that name and looking the name up returns that code:
`name_for(code) = name` and `code_for(name) = code`. -/
theorem ccn_tagdict_round_trip :
    ∀ e ∈ ccn_tagdict,
      name_for ccn_dtag_dict e.code = some e.name ∧
      code_for ccn_dtag_dict e.name = some e.code := by decide

theorem ccn_tagdict_round_trip_witness :
    name_for ccn_dtag_dict 1 = some "Name" ∧
    code_for ccn_dtag_dict "Name" = some 1 :=
  ccn_tagdict_round_trip ⟨1, "Name"⟩ (by decide)

/-- C2: no two distinct entries of `ccn_tagdict` carry the same code: the
codes at any two distinct positions of the table differ. -/
theorem ccn_tagdict_code_uniqueness :
    ∀ i j : Fin ccn_tagdict.length, i ≠ j →
      (ccn_tagdict.get i).code ≠ (ccn_tagdict.get j).code := by decide

theorem ccn_tagdict_code_uniqueness_witness :
    (ccn_tagdict.get ⟨0, by decide⟩).code ≠ (ccn_tagdict.get ⟨1, by decide⟩).code :=
  ccn_tagdict_code_uniqueness ⟨0, by decide⟩ ⟨1, by decide⟩ (by decide)

/-- C3: no two distinct entries of `ccn_tagdict` carry the same name
string: the names at any two distinct positions of the table differ. -/
theorem ccn_tagdict_name_uniqueness :
    ∀ i j : Fin ccn_tagdict.length, i ≠ j →
      (ccn_tagdict.get i).name ≠ (ccn_tagdict.get j).name := by decide

theorem ccn_tagdict_name_uniqueness_witness :
    (ccn_tagdict.get ⟨0, by decide⟩).name ≠ (ccn_tagdict.get ⟨1, by decide⟩).name :=
  ccn_tagdict_name_uniqueness ⟨0, by decide⟩ ⟨1, by decide⟩ (by decide)

/-- C4: a code matching no entry makes `name_for` return the
distinguishable not-found value `none`, and a string matching no entry's
name makes `code_for` return `none`; both lookups are total Lean
functions into `Option`, so a miss is an ordinary return value, never an
exception. -/
theorem lookup_miss_not_found :
    (∀ code : Nat, (∀ e ∈ ccn_tagdict, e.code ≠ code) →
      name_for ccn_dtag_dict code = none) ∧
    (∀ s : String, (∀ e ∈ ccn_tagdict, e.name ≠ s) →
      code_for ccn_dtag_dict s = none) :=
  ⟨fun code h => name_for_eq_none_of_not_mem ccn_dtag_dict code h,
   fun s h => code_for_eq_none_of_not_mem ccn_dtag_dict s h⟩

theorem lookup_miss_not_found_witness :
    name_for ccn_dtag_dict 9999 = none ∧
    code_for ccn_dtag_dict "" = none :=
  ⟨lookup_miss_not_found.1 9999 (by decide),
   lookup_miss_not_found.2 "" (by decide)⟩

/-- C5: `code_for` matches exactly and case-sensitively: any string equal
to some entry's name up to letter case but not an entry's name itself
yields not-found, and every hit comes from an entry whose name equals the
query string exactly — no prefix, fuzzy, or case-insensitive matching. -/
theorem code_for_case_sensitive :
    (∀ s : String,
      (∃ e ∈ ccn_tagdict,
        s.toList.map Char.toLower = e.name.toList.map Char.toLower) →
      (∀ e ∈ ccn_tagdict, e.name ≠ s) →
      code_for ccn_dtag_dict s = none) ∧
    (∀ (s : String) (c : Nat), code_for ccn_dtag_dict s = some c →
      ∃ e ∈ ccn_tagdict, e.name = s ∧ e.code = c) :=
  ⟨fun s _ h => code_for_eq_none_of_not_mem ccn_dtag_dict s h,
   fun s c h => code_for_some_exact ccn_dtag_dict s c h⟩

theorem code_for_case_sensitive_witness :
    code_for ccn_dtag_dict "name" = none ∧
    ∃ e ∈ ccn_tagdict, e.name = "Name" ∧ e.code = 1 :=
  ⟨code_for_case_sensitive.1 "name" ⟨⟨1, "Name"⟩, by decide, by decide⟩ (by decide),
   code_for_case_sensitive.2 "Name" 1 (by decide)⟩

/-- C6: the table holds the entry (`CCN_DTAG_Name` = 1, "Name"), so
`name_for(1)` returns "Name", `code_for("Name")` returns 1, and both
`code_for("name")` and `name_for(9999)` report not-found. -/
theorem dtag_name_concrete_example :
    (⟨ CCN_DTAG_Name, "Name"⟩ : ccn_dict_entry) ∈ ccn_tagdict ∧
    CCN_DTAG_Name = 1 ∧
    name_for ccn_dtag_dict 1 = some "Name" ∧
    code_for ccn_dtag_dict "Name" = some 1 ∧
    code_for ccn_dtag_dict "name" = none ∧
    name_for ccn_dtag_dict 9999 = none := by decide

/-- C7: `build` yields a dictionary handle exactly when the entry list
satisfies both uniqueness invariants, failing (MalformedTable, the `none`
outcome) on any list violating code or name uniqueness; the embedded
table itself passes and builds the exported descriptor. -/
theorem build_malformed_iff :
    (∀ entries : List ccn_dict_entry,
      (build entries).isSome ↔
        ((entries.map ccn_dict_entry.code).Nodup ∧
         (entries.map ccn_dict_entry.name).Nodup)) ∧
    build ccn_tagdict = some ccn_dtag_dict := by
  constructor
  · intro entries
    unfold build
    split <;> simp_all
  · decide

theorem build_malformed_iff_witness :
    (build [(⟨1, "Name"⟩ : ccn_dict_entry), ⟨1, "Component"⟩]).isSome ↔
      (([(⟨1, "Name"⟩ : ccn_dict_entry), ⟨1, "Component"⟩].map ccn_dict_entry.code).Nodup ∧
       ([(⟨1, "Name"⟩ : ccn_dict_entry), ⟨1, "Component"⟩].map ccn_dict_entry.name).Nodup) :=
  build_malformed_iff.1 [⟨1, "Name"⟩, ⟨1, "Component"⟩]

/-- C8: lookups are deterministic and side-effect-free: both lookups are
pure functions of the dictionary and the query, and two dictionaries
built from the same entry list agree on every `name_for` and `code_for`
query. -/
theorem lookups_deterministic :
    ∀ (l : List ccn_dict_entry) (d1 d2 : ccn_dict),
      build l = some d1 → build l = some d2 →
      (∀ code : Nat, name_for d1 code = name_for d2 code) ∧
      (∀ s : String, code_for d1 s = code_for d2 s) := by
  intro l d1 d2 h1 h2
  rw [h1, Option.some_inj] at h2
  subst h2
  exact ⟨fun _ => rfl, fun _ => rfl⟩

theorem lookups_deterministic_witness :
    name_for ⟨1, [⟨1, "Name"⟩]⟩ 1 = name_for ⟨1, [⟨1, "Name"⟩]⟩ 1 :=
  (lookups_deterministic [⟨1, "Name"⟩] ⟨1, [⟨1, "Name"⟩]⟩ ⟨1, [⟨1, "Name"⟩]⟩
    (by decide) (by decide)).1 1

/-- A character is an ASCII letter: in the range A..Z or a..z. -/
def isAsciiLetter (c : Char) : Bool :=
  ('A' ≤ c && c ≤ 'Z') || ('a' ≤ c && c ≤ 'z')

/-- C9: every entry's name in `ccn_tagdict` consists exclusively of ASCII
letters — no digits, spaces, punctuation, or non-ASCII characters. -/
theorem ccn_tagdict_names_ascii_letters :
    ∀ e ∈ ccn_tagdict, e.name.toList.all isAsciiLetter = true := by decide

theorem ccn_tagdict_names_ascii_letters_witness :
    ("Name".toList.all isAsciiLetter) = true :=
  ccn_tagdict_names_ascii_letters ⟨1, "Name"⟩ (by decide)

/-- C10: the exported descriptor `ccn_dtag_dict` is consistent with the
entry array: its count is exactly 44, the number of entries of
`ccn_tagdict`, and its entry list is `ccn_tagdict` itself, so iterating
over `count` entries of the descriptor visits exactly the listed
associations. -/
theorem ccn_dtag_dict_consistent :
    ccn_dtag_dict.count = 44 ∧
    ccn_dtag_dict.dict = ccn_tagdict ∧
    ccn_tagdict.length = 44 ∧
    ccn_dtag_dict.count = ccn_dtag_dict.dict.length := by decide
